import Mathlib

/-!
Verification development for the `komodo-codex-env` setup tool.

The Python sources are shallowly embedded: Python strings are modelled as
`List Char` (or Lean `String` where convenient), Python exceptions as an
explicit `PyExc` error type threaded through `Except`, and the effect of
external commands (subprocesses, the filesystem, environment variables) as
explicit parameters.  Each definition mirrors one Python function of the
repository; the theorems at the end settle the frozen claims.
-/

/-- Python exception values, restricted to the constructors the embedded
code can raise or observe. -/
inductive PyExc where
  | attributeError (attr : String)
  | typeError (msg : String)
  | other (msg : String)
deriving DecidableEq, Repr

instance {ε α : Type} [DecidableEq ε] [DecidableEq α] : DecidableEq (Except ε α) :=
  fun a b =>
    match a, b with
    | .ok x, .ok y =>
      if h : x = y then isTrue (by rw [h]) else isFalse (by intro hc; cases hc; exact h rfl)
    | .error x, .error y =>
      if h : x = y then isTrue (by rw [h]) else isFalse (by intro hc; cases hc; exact h rfl)
    | .ok _, .error _ => isFalse (by intro hc; cases hc)
    | .error _, .ok _ => isFalse (by intro hc; cases hc)

/-- Outcome of running one Python callable that is supposed to return a
`bool`: either it returns a boolean or it raises an exception. -/
inductive TaskOutcome where
  | ok (b : Bool)
  | exc (e : PyExc)
deriving DecidableEq, Repr

/-! ### Python string primitives over `List Char` -/

/-- ASCII whitespace recognised by `str.strip()` (the characters relevant to
filenames handled here). -/
def isSpaceChar (c : Char) : Bool :=
  c == ' ' || c == '\t' || c == '\n' || c == '\r'

/-- `haystack.startswith(needle)` over char lists. -/
def listStartsWith : List Char → List Char → Bool
  | _, [] => true
  | [], _ :: _ => false
  | a :: as, b :: bs => a == b && listStartsWith as bs

/-- `haystack.endswith(needle)` over char lists. -/
def listEndsWith (hay needle : List Char) : Bool :=
  listStartsWith hay.reverse needle.reverse

/-- Python's `needle in haystack` substring test. -/
def strContains (needle : List Char) : List Char → Bool
  | [] => listStartsWith [] needle
  | h :: t => listStartsWith (h :: t) needle || strContains needle t

/-- Python's `s.split(sep)` for a one-character separator: splits at every
occurrence and keeps empty pieces (`"a__b".split("_") = ["a", "", "b"]`). -/
def splitOnChar (sep : Char) : List Char → List (List Char)
  | [] => [[]]
  | h :: t =>
    let r := splitOnChar sep t
    if h == sep then [] :: r
    else
      match r with
      | [] => [[h]]
      | x :: xs => (h :: x) :: xs

/-- `str.strip()`: drop leading and trailing whitespace. -/
def pyStrip (l : List Char) : List Char :=
  ((l.dropWhile isSpaceChar).reverse.dropWhile isSpaceChar).reverse

/-- `str.lower()` (ASCII). -/
def pyLower (l : List Char) : List Char :=
  l.map Char.toLower

/-- Value of a non-empty all-digit string, `none` otherwise.  This is the
digit-sequence core of Python `int(...)` parsing.  (The inputs fed to it in
this development are components of `str.split("_")`, which can contain no
`_`, so Python's underscore digit grouping never applies.) -/
def charsToNatOpt (l : List Char) : Option Nat :=
  if l ≠ [] ∧ l.all Char.isDigit then
    some (l.foldl (fun a c => a * 10 + (c.toNat - 48)) 0)
  else none

/-- Python `int(s)` for ASCII inputs: strip whitespace, optional sign,
then a non-empty digit string; raises `ValueError` (= `none`) otherwise. -/
def pyIntParse (l : List Char) : Option Int :=
  match pyStrip l with
  | [] => none
  | c :: rest =>
    if c == '+' then (charsToNatOpt rest).map Int.ofNat
    else if c == '-' then (charsToNatOpt rest).map (fun n => -(n : Int))
    else (charsToNatOpt (c :: rest)).map Int.ofNat

/-- The decimal digit character for `d < 10`. -/
def digitChar (d : Nat) : Char :=
  Char.ofNat (48 + d)

/-- Auxiliary fuelled decimal printer (structural recursion so that concrete
values reduce). -/
def natToCharsAux : Nat → Nat → List Char
  | 0, _ => []
  | fuel + 1, n =>
    if n < 10 then [digitChar n]
    else natToCharsAux fuel (n / 10) ++ [digitChar (n % 10)]

/-- Python `str(n)` for a natural number. -/
def natToChars (n : Nat) : List Char :=
  natToCharsAux (n + 1) n

/-- Python `str(i)` for an integer. -/
def intToChars (i : Int) : List Char :=
  if i < 0 then '-' :: natToChars (-i).toNat else natToChars i.toNat

/-! ### `DocumentationManager._get_agents_file_path`
(src/komodo_codex_env/documentation_manager.py, lines 138-160)

A directory is modelled as the list of entry names it contains; the glob
`AGENTS_*.md` is the set of names of the form `AGENTS_` ++ s ++ `.md`. -/

/-- The fixed name `AGENTS.md`. -/
def agentsMdName : List Char := "AGENTS.md".toList

/-- Whether `name` matches the glob pattern `AGENTS_*.md`. -/
def globMatchAgents (name : List Char) : Bool :=
  listStartsWith name "AGENTS_".toList && listEndsWith name ".md".toList
    && decide (10 ≤ name.length)

/-- `pathlib.Path.stem` for a name ending in `.md`: strip the final
3-character suffix (the last `.` of such a name is the one in `.md`). -/
def stemOfMd (name : List Char) : List Char :=
  name.take (name.length - 3)

/-- `int(existing_file.stem.split("_")[1])`, with `IndexError`/`ValueError`
collapsed to `none` (the Python code `continue`s on either). -/
def agentsSuffixNum (name : List Char) : Option Int :=
  match (splitOnChar '_' (stemOfMd name)).get? 1 with
  | none => none
  | some s => pyIntParse s

/-- One iteration of the `max_num` loop of `_get_agents_file_path`:
glob matches whose suffix parses as an integer raise the running maximum,
everything else is skipped (`continue`). -/
def agentsMaxStep (acc : Int) (f : List Char) : Int :=
  if globMatchAgents f then
    match agentsSuffixNum f with
    | some n => max acc n
    | none => acc
  else acc

/-- The `max_num` loop of `_get_agents_file_path`: start at `0`, take the
max over every glob match whose suffix parses as an integer. -/
def agentsMaxNum (files : List (List Char)) : Int :=
  files.foldl agentsMaxStep 0

/-- `DocumentationManager._get_agents_file_path`, over the entry names of
the target directory. -/
def get_agents_file_path (files : List (List Char)) : List Char :=
  if agentsMdName ∈ files then
    "AGENTS_".toList ++ natToChars (agentsMaxNum files + 1).toNat ++ ".md".toList
  else agentsMdName

/-- Integer suffixes of the existing `AGENTS_*.md` files, in the claim's
reading (same per-file parse as the code: `int(stem.split("_")[1])`). -/
def claimAgentsSuffixes (files : List (List Char)) : List Int :=
  files.filterMap (fun f => if globMatchAgents f then agentsSuffixNum f else none)

/-- Modelled from the claim's words: `n` is the largest integer suffix among
existing `AGENTS_*.md` files, `0` if none parse as integers. -/
def claimAgentsN (files : List (List Char)) : Int :=
  match claimAgentsSuffixes files with
  | [] => 0
  | x :: xs => xs.foldl max x

/-- The path the claim says `_get_agents_file_path` returns when
`AGENTS.md` exists: `AGENTS_{n+1}.md`. -/
def claimAgentsPath (files : List (List Char)) : List Char :=
  "AGENTS_".toList ++ intToChars (claimAgentsN files + 1) ++ ".md".toList

/-! ### `EnvironmentConfig` (src/komodo_codex_env/config.py, lines 10-51)

Python `Path` values are modelled as strings; `home_dir`'s default
(`Path.home()`), the working directory and the physical CPU count read in
`__post_init__` are explicit parameters. -/

structure EnvironmentConfig where
  script_version : String := "1.3.0"
  auto_update_script : Bool := false
  skip_recursive_update : Bool := false
  max_execution_time : Nat := 300
  parallel_execution : Bool := true
  max_parallel_jobs : Option Nat := none
  flutter_version : String := "3.32.0"
  flutter_install_method : String := "precompiled"
  platforms : List String := ["web"]
  install_android_sdk : Bool := true
  android_api_level : String := "34"
  android_build_tools_version : String := "34.0.0"
  fetch_all_remote_branches : Bool := true
  remote_base_url : String := "https://github.com/KomodoPlatform"
  should_fetch_agents_docs : Bool := true
  should_fetch_kdf_api_docs : Bool := false
  gist_base_url : String := "https://gist.githubusercontent.com/CharlVS/14233fff7e9b3d66a7268d578cc34b36/raw"
  kdf_api_docs_url : String := "https://raw.githubusercontent.com/KomodoPlatform/komodo-docs-mdx/refs/heads/dev/data-for-gpts/komodefi-api/all-api-content.txt"
  home_dir : String
  flutter_dir : Option String := none
  fvm_dir : Option String := none
  android_home : Option String := none
  initial_dir : Option String := none
deriving DecidableEq, Repr

/-- The names of the dataclass fields `EnvironmentConfig` declares
(config.py lines 14-51, in source order). -/
def environmentConfigDeclaredFields : List String :=
  ["script_version", "auto_update_script", "skip_recursive_update",
   "max_execution_time", "parallel_execution", "max_parallel_jobs",
   "flutter_version", "flutter_install_method", "platforms",
   "install_android_sdk", "android_api_level", "android_build_tools_version",
   "fetch_all_remote_branches", "remote_base_url", "should_fetch_agents_docs",
   "should_fetch_kdf_api_docs", "gist_base_url", "kdf_api_docs_url",
   "home_dir", "flutter_dir", "fvm_dir", "android_home", "initial_dir"]

/-- Class-level attributes of `EnvironmentConfig` (properties and methods,
config.py lines 53-138): attribute lookup on an instance falls back to
these. -/
def environmentConfigClassAttrs : List String :=
  ["script_gist_url", "agents_gist_url", "flutter_bin_dir",
   "pub_cache_bin_dir", "fvm_flutter_bin", "from_environment",
   "get_flutter_version", "get_shell_profile", "__post_init__"]

/-- `max(1, cpu_count // 2)` where `cpu_count = psutil.cpu_count(logical=False) or 1`
(`or 1` turns both `None` and `0` into `1`). -/
def resolvedMaxJobs (cpuPhys : Option Nat) : Nat :=
  let cpu_count := match cpuPhys with
    | none => 1
    | some 0 => 1
    | some k => k
  max 1 (cpu_count / 2)

/-- `EnvironmentConfig.__post_init__` (config.py lines 53-71). -/
def environmentConfigPostInit (cpuPhys : Option Nat) (cwd : String)
    (c : EnvironmentConfig) : EnvironmentConfig :=
  let c := match c.max_parallel_jobs with
    | none => { c with max_parallel_jobs := some (resolvedMaxJobs cpuPhys) }
    | some _ => c
  let c := match c.flutter_dir with
    | none => { c with flutter_dir := some (c.home_dir ++ "/flutter") }
    | some _ => c
  let c := match c.fvm_dir with
    | none => { c with fvm_dir := some (c.home_dir ++ "/.fvm") }
    | some _ => c
  let c := match c.initial_dir with
    | none => { c with initial_dir := some cwd }
    | some _ => c
  let c := match c.android_home with
    | none => { c with android_home := some (c.home_dir ++ "/Android/Sdk") }
    | some _ => c
  c

/-- `EnvironmentConfig()`: dataclass defaults followed by `__post_init__`. -/
def defaultEnvironmentConfig (homeDir cwd : String) (cpuPhys : Option Nat) :
    EnvironmentConfig :=
  environmentConfigPostInit cpuPhys cwd { home_dir := homeDir }

/-- `os.getenv(key, default)`. -/
def pyGetenvD (env : String → Option String) (key dflt : String) : String :=
  (env key).getD dflt

/-- `s.lower()` on a Lean `String` (ASCII). -/
def pyLowerStr (s : String) : String :=
  String.mk (pyLower s.data)

/-- `s.strip()` on a Lean `String`. -/
def pyStripStr (s : String) : String :=
  String.mk (pyStrip s.data)

/-- `s.split(",")` on a Lean `String`. -/
def pySplitCommaStr (s : String) : List String :=
  (splitOnChar ',' s.data).map String.mk

/-- `s.isdigit()` (ASCII digits; `"".isdigit()` is `False`). -/
def pyIsdigitStr (s : String) : Bool :=
  !s.data.isEmpty && s.data.all Char.isDigit

/-- `int(s)` for a string known to be all digits. -/
def strDigitsToNat (s : String) : Nat :=
  s.data.foldl (fun a c => a * 10 + (c.toNat - 48)) 0

/-- `EnvironmentConfig.from_environment` (config.py lines 98-123). -/
def from_environment (env : String → Option String) (homeDir cwd : String)
    (cpuPhys : Option Nat) : EnvironmentConfig :=
  let config := defaultEnvironmentConfig homeDir cwd cpuPhys
  let config := { config with
    auto_update_script := pyLowerStr (pyGetenvD env "AUTO_UPDATE_SCRIPT" "false") == "true" }
  let config := { config with
    skip_recursive_update := pyLowerStr (pyGetenvD env "SKIP_RECURSIVE_UPDATE" "false") == "true" }
  let config := { config with
    parallel_execution := pyLowerStr (pyGetenvD env "PARALLEL_EXECUTION" "true") == "true" }
  let config := { config with
    flutter_install_method := pyGetenvD env "FLUTTER_INSTALL_METHOD" "precompiled" }
  let config := { config with
    fetch_all_remote_branches := pyLowerStr (pyGetenvD env "FETCH_ALL_REMOTE_BRANCHES" "true") == "true" }
  let config := { config with
    should_fetch_agents_docs := pyLowerStr (pyGetenvD env "SHOULD_FETCH_AGENTS_DOCS" "true") == "true" }
  let config := { config with
    should_fetch_kdf_api_docs := pyLowerStr (pyGetenvD env "SHOULD_FETCH_KDF_API_DOCS" "false") == "true" }
  let config := { config with
    install_android_sdk := pyLowerStr (pyGetenvD env "INSTALL_ANDROID_SDK" "true") == "true" }
  let config := match env "PLATFORMS" with
    | some p =>
      if p ≠ "" then
        { config with platforms := (pySplitCommaStr p).map pyStripStr }
      else config
    | none => config
  let config := match env "MAX_PARALLEL_JOBS" with
    | some m =>
      if m ≠ "" ∧ pyIsdigitStr m then
        { config with max_parallel_jobs := some (strDigitsToNat m) }
      else config
    | none => config
  config

/-! ### CLI `setup` command (src/komodo_codex_env/cli.py, lines 31-88) -/

/-- The `setup` command's click options with their declared defaults. -/
structure SetupArgs where
  flutter_version : String := "stable"
  install_method : String := "precompiled"
  install_type : String := "ALL"
  no_parallel : Bool := false
  platforms : String := "web"
  no_git_fetch : Bool := false
  no_docs : Bool := false
  kdf_docs : Bool := false
  max_time : Nat := 300
deriving DecidableEq, Repr

/-- The configuration the CLI `setup` command builds (cli.py lines 62-73):
`from_environment` followed by the command-line overrides.  The second
component is the value assigned to the dynamically attached attribute
`config.install_type`, which is not a declared dataclass field. -/
def cli_setup_config (args : SetupArgs) (env : String → Option String)
    (homeDir cwd : String) (cpuPhys : Option Nat) : EnvironmentConfig × String :=
  let config := from_environment env homeDir cwd cpuPhys
  let config := { config with flutter_version := args.flutter_version }
  let config := { config with flutter_install_method := args.install_method }
  let config := { config with parallel_execution := !args.no_parallel }
  let config := { config with platforms := (pySplitCommaStr args.platforms).map pyStripStr }
  let config := { config with fetch_all_remote_branches := !args.no_git_fetch }
  let config := { config with should_fetch_agents_docs := !args.no_docs }
  let config := { config with should_fetch_kdf_api_docs := args.kdf_docs }
  let config := { config with max_execution_time := args.max_time }
  (config, args.install_type)

/-- A projection of the configuration record can be populated from an
environment variable read by `from_environment`: two environments (same
machine parameters) yield different values. -/
def envPopulatable {α : Type} (f : EnvironmentConfig → α) : Prop :=
  ∃ e₁ e₂ hd wd cpu,
    f (from_environment e₁ hd wd cpu) ≠ f (from_environment e₂ hd wd cpu)

/-- A projection of the configuration record can be populated from a CLI
flag of the `setup` command. -/
def cliPopulatable {α : Type} (f : EnvironmentConfig → α) : Prop :=
  ∃ a₁ a₂ env hd wd cpu,
    f (cli_setup_config a₁ env hd wd cpu).1 ≠ f (cli_setup_config a₂ env hd wd cpu).1

/-- Claim C5 as stated: each of the six named flags is a declared field of
the flat `EnvironmentConfig` record and can be populated from an
environment variable read by `from_environment` or from a CLI flag of the
`setup` command. -/
def claimC5 : Prop :=
  ("flutter_version" ∈ environmentConfigDeclaredFields ∧
    (envPopulatable (fun c => c.flutter_version) ∨ cliPopulatable (fun c => c.flutter_version)))
  ∧ ("platforms" ∈ environmentConfigDeclaredFields ∧
    (envPopulatable (fun c => c.platforms) ∨ cliPopulatable (fun c => c.platforms)))
  ∧ ("install_type" ∈ environmentConfigDeclaredFields ∧
    (∃ a₁ a₂ env hd wd cpu,
      (cli_setup_config a₁ env hd wd cpu).2 ≠ (cli_setup_config a₂ env hd wd cpu).2))
  ∧ ("android_api_level" ∈ environmentConfigDeclaredFields ∧
    (envPopulatable (fun c => c.android_api_level) ∨ cliPopulatable (fun c => c.android_api_level)))
  ∧ ("android_build_tools_version" ∈ environmentConfigDeclaredFields ∧
    (envPopulatable (fun c => c.android_build_tools_version) ∨ cliPopulatable (fun c => c.android_build_tools_version)))
  ∧ ("parallel_execution" ∈ environmentConfigDeclaredFields ∧
    (envPopulatable (fun c => c.parallel_execution) ∨ cliPopulatable (fun c => c.parallel_execution)))

/-! ### Attribute lookup for C2
(src/komodo_codex_env/android_manager.py lines 27-47,
src/komodo_codex_env/setup.py lines 26-40)

For deciding whether a constructor raises `AttributeError`, a config
instance is abstracted to the list of its instance-attribute names;
`getattr` falls back to the class attributes. -/

/-- `getattr(config, name)` viewed as a check: `AttributeError` when the
name is neither an instance attribute nor a class attribute. -/
def pyGetattrCheck (instAttrs : List String) (name : String) : Except PyExc Unit :=
  if name ∈ instAttrs ∨ name ∈ environmentConfigClassAttrs then .ok ()
  else .error (.attributeError name)

/-- The config attribute reads performed by `AndroidManager.__init__`
(android_manager.py lines 27-47, in source order): `android_home` (line 33),
then the four version constants (lines 44-47). -/
def androidManagerInitCheck (instAttrs : List String) : Except PyExc Unit := do
  let _ ← pyGetattrCheck instAttrs "android_home"
  let _ ← pyGetattrCheck instAttrs "android_sdk_tools_version"
  let _ ← pyGetattrCheck instAttrs "android_api_level"
  let _ ← pyGetattrCheck instAttrs "android_build_tools_version"
  let _ ← pyGetattrCheck instAttrs "android_ndk_version"
  pure ()

/-- The config attribute reads performed by `EnvironmentSetup.__init__`
(setup.py lines 26-40): the executor reads `parallel_execution` and
`max_parallel_jobs`; `DependencyManager`/`GitManager` read no config
attributes; `FlutterManager.__init__` reads `home_dir`; then
`AndroidManager.__init__` runs; `DocumentationManager.__init__` reads the
`agents_gist_url` property and `kdf_api_docs_url`; `KdfManager.__init__`
reads none. -/
def environmentSetupInitCheck (instAttrs : List String) : Except PyExc Unit := do
  let _ ← pyGetattrCheck instAttrs "parallel_execution"
  let _ ← pyGetattrCheck instAttrs "max_parallel_jobs"
  let _ ← pyGetattrCheck instAttrs "home_dir"
  let _ ← androidManagerInitCheck instAttrs
  let _ ← pyGetattrCheck instAttrs "agents_gist_url"
  let _ ← pyGetattrCheck instAttrs "kdf_api_docs_url"
  pure ()

/-! ### `CommandExecutor.run_command` keyword acceptance and
`FlutterManager.install_fvm`
(src/komodo_codex_env/executor.py lines 90-97,
src/komodo_codex_env/flutter_manager.py lines 77-150) -/

/-- The keyword parameters `CommandExecutor.run_command` accepts
(executor.py lines 90-97; `self` excluded). -/
def runCommandKeywordParams : List String :=
  ["command", "cwd", "timeout", "check", "capture_output"]

/-- Calling `run_command` with the given keyword-argument names: Python
raises `TypeError` at the call when any name is not in the signature;
otherwise the call runs and (with `check=False`) yields the subprocess
return code. -/
def callRunCommandKw (kwargs : List String) (returncode : Int) : Except PyExc Int :=
  if kwargs.all (fun k => decide (k ∈ runCommandKeywordParams)) then .ok returncode
  else .error (.typeError "run_command() got an unexpected keyword argument")

/-- The inner Homebrew `try` of `install_fvm` (flutter_manager.py lines
94-105): `some true` means the branch returned `True`; `none` means it fell
through (an exception was caught, or FVM still not installed). -/
def installFvmBrewBranch (brewTap brewInstall : Except PyExc Unit)
    (installedAfterBrew : Bool) : Option Bool :=
  match brewTap with
  | .error _ => none
  | .ok _ =>
    match brewInstall with
    | .error _ => none
    | .ok _ => if installedAfterBrew then some true else none

/-- The guarded Homebrew attempt of `install_fvm` (lines 90-105): the
branch only runs when `"darwin" in os_name` (`os_name` is the lowered
`system_info` OS, `""` when missing) and `brew` exists. -/
def installFvmBrewOutcome (osName : Option (List Char)) (brewExists : Bool)
    (brewTap brewInstall : Except PyExc Unit)
    (installedAfterBrew : Bool) : Option Bool :=
  if strContains "darwin".toList (pyLower (osName.getD [])) && brewExists then
    installFvmBrewBranch brewTap brewInstall installedAfterBrew
  else none

/-- `FlutterManager.install_fvm` (flutter_manager.py lines 77-150).
Parameters supply the environment-dependent observations: the initial
`is_fvm_installed()` check, the `system_info` OS name, whether `brew`
exists, the outcomes of the two Homebrew commands, whether FVM is
installed after the Homebrew attempt, the `curl | bash` return code, and
whether FVM is installed after the official installer. -/
def install_fvm (isInstalled : Bool) (osName : Option (List Char))
    (brewExists : Bool) (brewTap brewInstall : Except PyExc Unit)
    (installedAfterBrew : Bool) (curlReturncode : Int)
    (installedAfterCurl : Bool) : Bool :=
  if isInstalled then true
  else
    let tryBody : Except PyExc Bool :=
      match installFvmBrewOutcome osName brewExists brewTap brewInstall
          installedAfterBrew with
      | some b => .ok b
      | none =>
        match callRunCommandKw ["timeout", "check", "env"] curlReturncode with
        | .error e => .error e
        | .ok rc =>
          if rc == 0 then
            if installedAfterCurl then .ok true else .ok false
          else .ok false
    match tryBody with
    | .ok b => b
    | .error _ => false

/-! ### `DependencyManager` (src/komodo_codex_env/dependency_manager.py)

External observations are parameters: `cmdAvail dep` is
`shutil.which(dep) is not None`, `cmdExists pm` is
`executor.check_command_exists(pm)`, `queryOk pkg` is the success of the
package-manager query in `_is_package_installed`, and `handler pm pkgs`
the boolean result of the `_handle_apt`/`_handle_brew`/`_handle_pacman`
call. -/

/-- `DependencyManager.detect_package_manager` (lines 60-65): first of
`apt`, `brew`, `pacman` whose command exists. -/
def detect_package_manager (cmdExists : String → Bool) : Option String :=
  if cmdExists "apt" then some "apt"
  else if cmdExists "brew" then some "brew"
  else if cmdExists "pacman" then some "pacman"
  else none

/-- `DependencyManager._is_package_installed` (lines 100-137). -/
def is_package_installed (cmdExists : String → Bool) (queryOk : String → Bool)
    (package : String) : Bool :=
  match detect_package_manager cmdExists with
  | some "apt" => queryOk package
  | some "brew" => queryOk package
  | some "pacman" => queryOk package
  | _ => false

/-- The per-dependency branching of `DependencyManager.check_dependencies`
(lines 67-94). -/
def checkOneDependency (cmdAvail cmdExists queryOk : String → Bool)
    (dep : String) : Bool :=
  let pm := detect_package_manager cmdExists
  if dep ∈ ["curl", "git", "unzip", "zip"] then cmdAvail dep
  else if dep == "xz-utils" then cmdAvail "xz"
  else if dep == "libglu1-mesa" then
    if pm == some "brew" then true else is_package_installed cmdExists queryOk dep
  else cmdAvail dep || is_package_installed cmdExists queryOk dep

/-- Key deduplication of a Python dict built by inserting each list element
(first-occurrence order; values here are deterministic per key). -/
def dedupKeysAux (seen : List String) : List String → List String
  | [] => []
  | d :: t =>
    if d ∈ seen then dedupKeysAux seen t
    else d :: dedupKeysAux (d :: seen) t

/-- `DependencyManager.check_dependencies` (lines 67-94): the `results`
dict as an association list. -/
def check_dependencies (cmdAvail cmdExists queryOk : String → Bool)
    (dependencies : List String) : List (String × Bool) :=
  (dedupKeysAux [] dependencies).map
    (fun dep => (dep, checkOneDependency cmdAvail cmdExists queryOk dep))

/-- `DependencyManager._get_platform_packages` (lines 25-58): maps a
package manager and a generic dependency name to the platform-specific
package name (`""` meaning "not needed on this platform"). -/
def platformPackages (pm dep : String) : Option String :=
  let lookup := fun (table : List (String × String)) =>
    (table.find? (fun p => p.1 == dep)).map Prod.snd
  if pm == "apt" then
    lookup [("curl", "curl"), ("git", "git"), ("unzip", "unzip"),
            ("xz-utils", "xz-utils"), ("zip", "zip"),
            ("libglu1-mesa", "libglu1-mesa"),
            ("build-essential", "build-essential"), ("dart", "dart")]
  else if pm == "brew" then
    lookup [("curl", "curl"), ("git", "git"), ("unzip", "unzip"),
            ("xz-utils", "xz"), ("zip", "zip"), ("libglu1-mesa", ""),
            ("build-essential", ""), ("dart", "dart")]
  else if pm == "pacman" then
    lookup [("curl", "curl"), ("git", "git"), ("unzip", "unzip"),
            ("xz-utils", "xz"), ("zip", "zip"), ("libglu1-mesa", "glu"),
            ("build-essential", "base-devel"), ("dart", "dart")]
  else none

/-- `DependencyManager.install_dependencies` (lines 139-169).  The second
component records whether a package-manager install handler was invoked. -/
def install_dependencies (cmdAvail cmdExists queryOk : String → Bool)
    (handler : String → List String → Bool)
    (dependencies : List String) : Bool × Bool :=
  let dependency_status := check_dependencies cmdAvail cmdExists queryOk dependencies
  let missing_deps := (dependency_status.filter (fun p => !p.2)).map Prod.fst
  if missing_deps.isEmpty then (true, false)
  else
    match detect_package_manager cmdExists with
    | none => (false, false)
    | some pm =>
      let platform_deps := missing_deps.foldr
        (fun dep acc =>
          match platformPackages pm dep with
          | some p => if p ≠ "" then p :: acc else acc
          | none => dep :: acc)
        []
      if platform_deps.isEmpty then (true, false)
      else (handler pm platform_deps, true)

/-! ### Shell-profile editing (dependency_manager.py lines 337-397)

The profile file's content is a char list (`""` when the file does not
exist); both functions return the new content and the Python result. -/

/-- `DependencyManager.add_environment_variable` (lines 337-365). -/
def add_environment_variable (var_name var_value content : List Char) :
    List Char × Bool :=
  let export_line := "export ".toList ++ var_name ++ "=\"".toList
      ++ var_value ++ "\"".toList
  let var_pattern := "export ".toList ++ var_name ++ "=".toList
  if strContains var_pattern content then (content, true)
  else
    (content ++ "\n# Added by Komodo Codex Environment Setup\n".toList
       ++ export_line ++ "\n".toList,
     true)

/-- `DependencyManager.add_to_path` (lines 367-397).  `resolve` models
`str(Path(path_entry).resolve())`, which depends on the filesystem. -/
def add_to_path (resolve : List Char → List Char)
    (path_entry content : List Char) : List Char × Bool :=
  let entry := resolve path_entry
  if strContains entry content then (content, true)
  else
    let export_line := "export PATH=\"$PATH:".toList ++ entry ++ "\"".toList
    (content ++ "\n# Added by Komodo Codex Environment Setup\n".toList
       ++ export_line ++ "\n".toList,
     true)

/-! ### `EnvironmentSetup._setup_flutter_and_android` and the phase
sequencing of `run_setup` (src/komodo_codex_env/setup.py)

The three leaf calls that hit the outside world are parameters:
`fi` = `flutter_manager.install_flutter()`,
`fc` = `flutter_manager.configure_flutter()`,
`ai` = `android_manager.install_android_sdk()` (each may return a bool or
raise). -/

/-- The `setup_flutter` inner task of the parallel branch (setup.py lines
152-163): `False` if install fails, else `True` regardless of the
configure result; exceptions propagate. -/
def setup_flutter_task (fi fc : TaskOutcome) : TaskOutcome :=
  match fi with
  | .exc e => .exc e
  | .ok false => .ok false
  | .ok true =>
    match fc with
    | .exc e => .exc e
    | .ok _ => .ok true

/-- The `setup_android` inner task of the parallel branch (setup.py lines
166-185).  The second component records whether
`android_manager.install_android_sdk` was invoked. -/
def setup_android_task (install_android_sdk : Bool) (platforms : List String)
    (ai : TaskOutcome) : TaskOutcome × Bool :=
  if !install_android_sdk then (.ok true, false)
  else if "android" ∉ platforms then (.ok true, false)
  else (ai, true)

/-- `EnvironmentSetup._setup_flutter_sequential` (setup.py lines 217-232);
same control flow as the parallel `setup_flutter` task. -/
def setup_flutter_sequential (fi fc : TaskOutcome) : TaskOutcome :=
  match fi with
  | .exc e => .exc e
  | .ok false => .ok false
  | .ok true =>
    match fc with
    | .exc e => .exc e
    | .ok _ => .ok true

/-- `EnvironmentSetup._setup_android_sequential` (setup.py lines 234-254);
same checks as the parallel `setup_android` task, and no exception
handling of its own. -/
def setup_android_sequential (install_android_sdk : Bool)
    (platforms : List String) (ai : TaskOutcome) : TaskOutcome × Bool :=
  if !install_android_sdk then (.ok true, false)
  else if "android" ∉ platforms then (.ok true, false)
  else (ai, true)

/-- `EnvironmentSetup._setup_flutter_and_android` (setup.py lines 143-215).
In the parallel branch `asyncio.gather(..., return_exceptions=True)`
collects both outcomes; an exceptional Flutter result counts as failure
and an exceptional Android result is replaced by `True`; the branch
returns `flutter_success == True`.  In the sequential branch exceptions
propagate (`.exc`).  The second component records whether
`install_android_sdk` was invoked. -/
def setup_flutter_and_android (parallel : Bool) (install_android_sdk : Bool)
    (platforms : List String) (fi fc ai : TaskOutcome) : TaskOutcome × Bool :=
  if parallel then
    let r0 := setup_flutter_task fi fc
    let ra := setup_android_task install_android_sdk platforms ai
    let flutter_success := match r0 with | .ok b => b | .exc _ => false
    let _android_success := match ra.1 with | .ok b => b | .exc _ => true
    (.ok (flutter_success == true), ra.2)
  else
    match setup_flutter_sequential fi fc with
    | .exc e => (.exc e, false)
    | .ok false => (.ok false, false)
    | .ok true =>
      let ra := setup_android_sequential install_android_sdk platforms ai
      match ra.1 with
      | .exc e => (.exc e, ra.2)
      | .ok _ => (.ok true, ra.2)

/-- The boolean the claim calls "the success of the Flutter setup task
alone": its returned boolean, counting an exception as failure. -/
def flutterSuccessOf : TaskOutcome → Bool
  | .ok b => b
  | .exc _ => false

/-- Claim C1 as stated: in both branches the phase's result is the boolean
success of the Flutter task alone. -/
def claimC1 : Prop :=
  ∀ (parallel install_android_sdk : Bool) (platforms : List String)
    (fi fc ai : TaskOutcome),
    (setup_flutter_and_android parallel install_android_sdk platforms fi fc ai).1
      = .ok (flutterSuccessOf (setup_flutter_task fi fc))

/-! ### `EnvironmentSetup.run_setup` (setup.py lines 42-93)

Phases are numbered 1-7 in source order: system dependencies, git
operations, Flutter/Android, environment configuration, documentation,
KDF dependencies, project setup.  Each phase's outcome is a parameter
(`.error` = the phase raised).  `install_type` is the dynamically attached
config attribute: reading it when absent raises `AttributeError` inside
the `try`.  The result records the executed-phase trace. -/

/-- `install_type in ("ALL", "KW", "KDF-SDK")` (line 59). -/
def phase3Gate (t : String) : Bool :=
  t == "ALL" || t == "KW" || t == "KDF-SDK"

/-- `install_type in ("ALL", "KW")` (lines 66 and 82). -/
def phase47Gate (t : String) : Bool :=
  t == "ALL" || t == "KW"

/-- `install_type in ("ALL", "KDF", "KDF-SDK")` (line 77). -/
def phase6Gate (t : String) : Bool :=
  t == "ALL" || t == "KDF" || t == "KDF-SDK"

/-- Phase 7, project setup (lines 81-86). -/
def rsPhase7 (t : String) (o7 : Except PyExc Bool) (tr : List Nat) :
    Except PyExc Bool × List Nat :=
  if phase47Gate t then
    match o7 with
    | .error e => (.error e, tr ++ [7])
    | .ok false => (.ok false, tr ++ [7])
    | .ok true => (.ok true, tr ++ [7])
  else (.ok true, tr)

/-- Phase 6, KDF dependencies (lines 76-79), then phase 7. -/
def rsPhase6 (t : String) (o6 o7 : Except PyExc Bool) (tr : List Nat) :
    Except PyExc Bool × List Nat :=
  if phase6Gate t then
    match o6 with
    | .error e => (.error e, tr ++ [6])
    | .ok false => (.ok false, tr ++ [6])
    | .ok true => rsPhase7 t o7 (tr ++ [6])
  else rsPhase7 t o7 tr

/-- Phase 5, documentation (lines 72-74, ungated), then phase 6. -/
def rsPhase5 (t : String) (o5 o6 o7 : Except PyExc Bool) (tr : List Nat) :
    Except PyExc Bool × List Nat :=
  match o5 with
  | .error e => (.error e, tr ++ [5])
  | .ok false => (.ok false, tr ++ [5])
  | .ok true => rsPhase6 t o6 o7 (tr ++ [5])

/-- Phase 4, environment configuration (lines 65-70), then phase 5. -/
def rsPhase4 (t : String) (o4 o5 o6 o7 : Except PyExc Bool) (tr : List Nat) :
    Except PyExc Bool × List Nat :=
  if phase47Gate t then
    match o4 with
    | .error e => (.error e, tr ++ [4])
    | .ok false => (.ok false, tr ++ [4])
    | .ok true => rsPhase5 t o5 o6 o7 (tr ++ [4])
  else rsPhase5 t o5 o6 o7 tr

/-- Phase 3, Flutter/Android installation (lines 58-63), then phase 4. -/
def rsPhase3 (t : String) (o3 o4 o5 o6 o7 : Except PyExc Bool) (tr : List Nat) :
    Except PyExc Bool × List Nat :=
  if phase3Gate t then
    match o3 with
    | .error e => (.error e, tr ++ [3])
    | .ok false => (.ok false, tr ++ [3])
    | .ok true => rsPhase4 t o4 o5 o6 o7 (tr ++ [3])
  else rsPhase4 t o4 o5 o6 o7 tr

/-- The body of `run_setup`'s `try` block (setup.py lines 50-89): phase 1
is fatal on `False`, phase 2's result is ignored, then the
`install_type`-gated phases. -/
def run_setup_body (install_type : Option String)
    (o1 o2 o3 o4 o5 o6 o7 : Except PyExc Bool) :
    Except PyExc Bool × List Nat :=
  match o1 with
  | .error e => (.error e, [1])
  | .ok false => (.ok false, [1])
  | .ok true =>
    match o2 with
    | .error e => (.error e, [1, 2])
    | .ok _ =>
      match install_type with
      | none => (.error (.attributeError "install_type"), [1, 2])
      | some t => rsPhase3 t o3 o4 o5 o6 o7 [1, 2]

/-- `EnvironmentSetup.run_setup` (lines 42-93): the `try` body wrapped in
the top-level `except Exception` handler, which converts any exception
into the return value `False`. -/
def run_setup (install_type : Option String)
    (o1 o2 o3 o4 o5 o6 o7 : Except PyExc Bool) : Bool × List Nat :=
  let r := run_setup_body install_type o1 o2 o3 o4 o5 o6 o7
  (match r.1 with
   | .ok b => b
   | .error _ => false,
   r.2)

/-- Claim C10 as stated: whenever `AGENTS.md` exists,
`_get_agents_file_path` returns `AGENTS_{n+1}.md` for `n` the largest
integer suffix (`0` if none parse), and the returned path never refers to
an existing file. -/
def claimC10 : Prop :=
  ∀ files, agentsMdName ∈ files →
    get_agents_file_path files = claimAgentsPath files
    ∧ get_agents_file_path files ∉ files

/-! ## Theorems -/

/-- C4: whenever `android` is not among the target platforms or
`install_android_sdk` is false, both the parallel Android task and the
sequential Android step return `True` without invoking
`AndroidManager.install_android_sdk`. -/
theorem c4_android_skip (install_android_sdk : Bool) (platforms : List String)
    (ai : TaskOutcome)
    (h : "android" ∉ platforms ∨ install_android_sdk = false) :
    setup_android_task install_android_sdk platforms ai = (.ok true, false)
    ∧ setup_android_sequential install_android_sdk platforms ai = (.ok true, false) := by
  rcases h with h | h
  · cases install_android_sdk <;>
      simp [setup_android_task, setup_android_sequential, h]
  · subst h
    simp [setup_android_task, setup_android_sequential]

/-- Witness for C4 at a concrete configuration. -/
theorem c4_android_skip_witness :
    setup_android_task true ["web"] (.ok false) = (.ok true, false)
    ∧ setup_android_sequential true ["web"] (.ok false) = (.ok true, false) :=
  c4_android_skip true ["web"] (.ok false) (Or.inl (by decide))

/-- C8: if `check_dependencies` reports every entry installed,
`install_dependencies` returns `True` immediately and no package-manager
install handler runs. -/
theorem c8_no_install_when_all_present (cmdAvail cmdExists queryOk : String → Bool)
    (handler : String → List String → Bool) (dependencies : List String)
    (h : ∀ p ∈ check_dependencies cmdAvail cmdExists queryOk dependencies, p.2 = true) :
    install_dependencies cmdAvail cmdExists queryOk handler dependencies = (true, false) := by
  unfold install_dependencies
  have hm : (check_dependencies cmdAvail cmdExists queryOk dependencies).filter
      (fun p => !p.2) = [] := by
    apply List.filter_eq_nil_iff.mpr
    intro p hp
    simp [h p hp]
  simp [hm]

/-- Witness for C8 on a concrete fully-installed system. -/
theorem c8_no_install_when_all_present_witness :
    install_dependencies (fun _ => true) (fun _ => true) (fun _ => true)
      (fun _ _ => false) ["curl", "git", "unzip", "xz-utils", "zip"] = (true, false) :=
  c8_no_install_when_all_present (fun _ => true) (fun _ => true) (fun _ => true)
    (fun _ _ => false) ["curl", "git", "unzip", "xz-utils", "zip"] (by decide)

/-- C9: both profile editors only ever append — the previous content is a
prefix of the result — and when the export pattern (resp. the resolved
path entry) already occurs in the profile, the content is returned
unchanged with result `True`. -/
theorem c9_profile_append_only (var_name var_value content path_entry : List Char)
    (resolve : List Char → List Char) :
    ((add_environment_variable var_name var_value content).2 = true
      ∧ ∃ s, (add_environment_variable var_name var_value content).1 = content ++ s)
    ∧ (strContains ("export ".toList ++ var_name ++ "=".toList) content = true →
        add_environment_variable var_name var_value content = (content, true))
    ∧ ((add_to_path resolve path_entry content).2 = true
      ∧ ∃ s, (add_to_path resolve path_entry content).1 = content ++ s)
    ∧ (strContains (resolve path_entry) content = true →
        add_to_path resolve path_entry content = (content, true)) := by
  have henv : add_environment_variable var_name var_value content =
      if strContains ("export ".toList ++ var_name ++ "=".toList) content
      then (content, true)
      else (content ++ ("\n# Added by Komodo Codex Environment Setup\n".toList
        ++ ("export ".toList ++ var_name ++ "=\"".toList ++ var_value ++ "\"".toList)
        ++ "\n".toList), true) := by
    unfold add_environment_variable
    by_cases hc : strContains ("export ".toList ++ var_name ++ "=".toList) content
    · rw [if_pos hc, if_pos hc]
    · rw [if_neg hc, if_neg hc]
      simp [List.append_assoc]
  have hpath : add_to_path resolve path_entry content =
      if strContains (resolve path_entry) content
      then (content, true)
      else (content ++ ("\n# Added by Komodo Codex Environment Setup\n".toList
        ++ ("export PATH=\"$PATH:".toList ++ resolve path_entry ++ "\"".toList)
        ++ "\n".toList), true) := by
    unfold add_to_path
    by_cases hc : strContains (resolve path_entry) content
    · rw [if_pos hc, if_pos hc]
    · rw [if_neg hc, if_neg hc]
      simp [List.append_assoc]
  rw [henv, hpath]
  by_cases hc1 : strContains ("export ".toList ++ var_name ++ "=".toList) content
  · by_cases hc2 : strContains (resolve path_entry) content
    · rw [if_pos hc1, if_pos hc2]
      exact ⟨⟨rfl, ⟨[], by simp⟩⟩, fun _ => rfl, ⟨rfl, ⟨[], by simp⟩⟩, fun _ => rfl⟩
    · rw [if_pos hc1, if_neg hc2]
      exact ⟨⟨rfl, ⟨[], by simp⟩⟩, fun _ => rfl, ⟨rfl, ⟨_, rfl⟩⟩,
        fun h => absurd h hc2⟩
  · by_cases hc2 : strContains (resolve path_entry) content
    · rw [if_neg hc1, if_pos hc2]
      exact ⟨⟨rfl, ⟨_, rfl⟩⟩, fun h => absurd h hc1, ⟨rfl, ⟨[], by simp⟩⟩, fun _ => rfl⟩
    · rw [if_neg hc1, if_neg hc2]
      exact ⟨⟨rfl, ⟨_, rfl⟩⟩, fun h => absurd h hc1, ⟨rfl, ⟨_, rfl⟩⟩,
        fun h => absurd h hc2⟩

/-- Witness for C9 on a concrete profile that already contains the
variable and the path entry. -/
theorem c9_profile_append_only_witness :
    add_environment_variable "X".toList "2".toList
        "export X=\"1\"\nexport PATH=\"$PATH:/opt/bin\"\n".toList
      = ("export X=\"1\"\nexport PATH=\"$PATH:/opt/bin\"\n".toList, true)
    ∧ add_to_path id "/opt/bin".toList
        "export X=\"1\"\nexport PATH=\"$PATH:/opt/bin\"\n".toList
      = ("export X=\"1\"\nexport PATH=\"$PATH:/opt/bin\"\n".toList, true) :=
  ⟨(c9_profile_append_only "X".toList "2".toList
      "export X=\"1\"\nexport PATH=\"$PATH:/opt/bin\"\n".toList "/opt/bin".toList id).2.1
      (by decide),
   (c9_profile_append_only "X".toList "2".toList
      "export X=\"1\"\nexport PATH=\"$PATH:/opt/bin\"\n".toList "/opt/bin".toList id).2.2.2
      (by decide)⟩

/-- C2: for any config instance whose attributes are the declared dataclass
fields (possibly plus the CLI-attached `install_type`),
`AndroidManager.__init__` raises `AttributeError` on
`android_sdk_tools_version`, and therefore `EnvironmentSetup.__init__`
raises as well. -/
theorem c2_android_manager_attribute_error (instAttrs : List String)
    (h1 : ∀ f ∈ environmentConfigDeclaredFields, f ∈ instAttrs)
    (h2 : ∀ a ∈ instAttrs, a ∈ environmentConfigDeclaredFields ∨ a = "install_type") :
    androidManagerInitCheck instAttrs
      = .error (.attributeError "android_sdk_tools_version")
    ∧ environmentSetupInitCheck instAttrs
      = .error (.attributeError "android_sdk_tools_version") := by
  have hget : ∀ name ∈ environmentConfigDeclaredFields,
      pyGetattrCheck instAttrs name = .ok () := by
    intro name hname
    unfold pyGetattrCheck
    rw [if_pos (Or.inl (h1 name hname))]
  have hmiss : pyGetattrCheck instAttrs "android_sdk_tools_version"
      = .error (.attributeError "android_sdk_tools_version") := by
    unfold pyGetattrCheck
    rw [if_neg]
    rintro (hin | hin)
    · rcases h2 _ hin with hd | hd
      · revert hd; decide
      · exact absurd hd (by decide)
    · revert hin; decide
  have hA : androidManagerInitCheck instAttrs
      = .error (.attributeError "android_sdk_tools_version") := by
    unfold androidManagerInitCheck
    rw [hget "android_home" (by decide), hmiss]
    rfl
  refine ⟨hA, ?_⟩
  unfold environmentSetupInitCheck
  rw [hget "parallel_execution" (by decide), hget "max_parallel_jobs" (by decide),
    hget "home_dir" (by decide), hA]
  rfl

/-- Witness for C2: the default-constructed config instance. -/
theorem c2_android_manager_attribute_error_witness :
    androidManagerInitCheck environmentConfigDeclaredFields
      = .error (.attributeError "android_sdk_tools_version")
    ∧ environmentSetupInitCheck environmentConfigDeclaredFields
      = .error (.attributeError "android_sdk_tools_version") :=
  c2_android_manager_attribute_error environmentConfigDeclaredFields
    (by decide) (by decide)

/-- C6: calling `run_command` with the `env` keyword raises `TypeError`,
and consequently `install_fvm` returns `False` whenever FVM is not already
installed and the Homebrew branch does not succeed. -/
theorem c6_install_fvm_false (osName : Option (List Char)) (brewExists : Bool)
    (brewTap brewInstall : Except PyExc Unit) (installedAfterBrew : Bool)
    (curlReturncode : Int) (installedAfterCurl : Bool)
    (hbrew : installFvmBrewOutcome osName brewExists brewTap brewInstall
      installedAfterBrew ≠ some true) :
    (∀ rc : Int, callRunCommandKw ["timeout", "check", "env"] rc
      = .error (.typeError "run_command() got an unexpected keyword argument"))
    ∧ install_fvm false osName brewExists brewTap brewInstall installedAfterBrew
        curlReturncode installedAfterCurl = false := by
  constructor
  · intro rc
    rfl
  · unfold install_fvm
    rcases hcond : installFvmBrewOutcome osName brewExists brewTap brewInstall
        installedAfterBrew with _ | b
    · simp only [hcond]
      rfl
    · rw [hcond] at hbrew
      cases b
      · simp only [hcond]
        rfl
      · exact absurd rfl hbrew

/-- Witness for C6 on a Linux host with no prior FVM installation. -/
theorem c6_install_fvm_false_witness :
    install_fvm false (some "linux".toList) false (.ok ()) (.ok ()) false 0 true = false :=
  (c6_install_fvm_false (some "linux".toList) false (.ok ()) (.ok ()) false 0 true
    (by decide)).2

/-- C3: `run_setup` returns a boolean on every path — an exception raised
by any phase (`run_setup_body` yielding `.error`) is caught by the
top-level handler and turned into the return value `False`, and the
result is `True` exactly when the `try` body completed with `True`. -/
theorem c3_run_setup_catches (install_type : Option String)
    (o1 o2 o3 o4 o5 o6 o7 : Except PyExc Bool) :
    (∀ e, (run_setup_body install_type o1 o2 o3 o4 o5 o6 o7).1 = .error e →
      (run_setup install_type o1 o2 o3 o4 o5 o6 o7).1 = false)
    ∧ ((run_setup install_type o1 o2 o3 o4 o5 o6 o7).1 = true ↔
      (run_setup_body install_type o1 o2 o3 o4 o5 o6 o7).1 = .ok true) := by
  rcases hb : run_setup_body install_type o1 o2 o3 o4 o5 o6 o7 with ⟨r, tr⟩
  rcases r with e | b
  · simp [run_setup, hb]
  · cases b <;> simp [run_setup, hb]

/-- Witness for C3: a documentation-phase exception is converted into the
return value `False`. -/
theorem c3_run_setup_catches_witness :
    (run_setup (some "ALL") (.ok true) (.ok true) (.ok true) (.ok true)
      (.error (.other "fetch failed")) (.ok true) (.ok true)).1 = false :=
  (c3_run_setup_catches (some "ALL") (.ok true) (.ok true) (.ok true) (.ok true)
    (.error (.other "fetch failed")) (.ok true) (.ok true)).1
    (.other "fetch failed") (by decide)

/-- C1 counterexample: in the sequential branch, with Flutter succeeding
and the Android task raising, the phase yields the exception rather than
the Flutter task's boolean success, so the claim as stated is false. -/
theorem c1_counterexample : ¬ claimC1 := by
  intro h
  exact absurd
    (h false true ["android"] (.ok true) (.ok true) (.exc (.other "sdkmanager failed")))
    (by decide)

/-- C1 (amended): in the parallel branch the phase's result is `.ok` of the
Flutter task's success alone, whatever the Android outcome; in the
sequential branch the same holds whenever neither task raises, while an
exception of the Flutter task, or of the Android task after Flutter
succeeded, propagates out of the phase. -/
theorem c1_flutter_result_governs (install_android_sdk : Bool)
    (platforms : List String) (fi fc ai : TaskOutcome) :
    ((setup_flutter_and_android true install_android_sdk platforms fi fc ai).1
      = .ok (flutterSuccessOf (setup_flutter_task fi fc)))
    ∧ (∀ e, setup_flutter_task fi fc = .exc e →
        (setup_flutter_and_android false install_android_sdk platforms fi fc ai).1
          = .exc e)
    ∧ (∀ e, setup_flutter_task fi fc = .ok true →
        (setup_android_sequential install_android_sdk platforms ai).1 = .exc e →
        (setup_flutter_and_android false install_android_sdk platforms fi fc ai).1
          = .exc e)
    ∧ (∀ bf ba, setup_flutter_task fi fc = .ok bf →
        (setup_android_sequential install_android_sdk platforms ai).1 = .ok ba →
        (setup_flutter_and_android false install_android_sdk platforms fi fc ai).1
          = .ok bf) := by
  have hseq : setup_flutter_sequential fi fc = setup_flutter_task fi fc := rfl
  refine ⟨?_, ?_, ?_, ?_⟩
  · rcases hst : setup_flutter_task fi fc with b | e <;>
      simp [setup_flutter_and_android, hst, flutterSuccessOf]
  · intro e hst
    simp [setup_flutter_and_android, hseq, hst]
  · intro e hst har
    rcases ha : setup_android_sequential install_android_sdk platforms ai with ⟨r, inv⟩
    rw [ha] at har
    simp at har
    simp [setup_flutter_and_android, hseq, hst, ha, har]
  · intro bf ba hst har
    rcases ha : setup_android_sequential install_android_sdk platforms ai with ⟨r, inv⟩
    rw [ha] at har
    simp at har
    cases bf <;>
      simp [setup_flutter_and_android, hseq, hst, ha, har]

/-- Witness for C1 exercising each hypothesis-bearing conjunct. -/
theorem c1_flutter_result_governs_witness :
    ((setup_flutter_and_android false true ["android"] (.exc (.other "curl failed"))
        (.ok true) (.ok true)).1 = .exc (.other "curl failed"))
    ∧ ((setup_flutter_and_android false true ["android"] (.ok true) (.ok true)
        (.exc (.other "unzip failed"))).1 = .exc (.other "unzip failed"))
    ∧ ((setup_flutter_and_android false true ["android"] (.ok true) (.ok true)
        (.ok false)).1 = .ok true) :=
  ⟨(c1_flutter_result_governs true ["android"] (.exc (.other "curl failed"))
      (.ok true) (.ok true)).2.1 (.other "curl failed") (by decide),
   (c1_flutter_result_governs true ["android"] (.ok true) (.ok true)
      (.exc (.other "unzip failed"))).2.2.1 (.other "unzip failed") (by decide) (by decide),
   (c1_flutter_result_governs true ["android"] (.ok true) (.ok true)
      (.ok false)).2.2.2 true false (by decide) (by decide)⟩

theorem from_environment_fixed_fields (env : String → Option String)
    (hd wd : String) (cpu : Option Nat) :
    (from_environment env hd wd cpu).flutter_version = "3.32.0"
    ∧ (from_environment env hd wd cpu).android_api_level = "34"
    ∧ (from_environment env hd wd cpu).android_build_tools_version = "34.0.0" := by
  unfold from_environment defaultEnvironmentConfig environmentConfigPostInit
  cases env "PLATFORMS" <;> cases env "MAX_PARALLEL_JOBS" <;>
    simp <;> split_ifs <;> simp

theorem cli_setup_config_fixed_fields (args : SetupArgs)
    (env : String → Option String) (hd wd : String) (cpu : Option Nat) :
    (cli_setup_config args env hd wd cpu).1.android_api_level = "34"
    ∧ (cli_setup_config args env hd wd cpu).1.android_build_tools_version = "34.0.0"
    ∧ (cli_setup_config args env hd wd cpu).2 = args.install_type := by
  unfold cli_setup_config
  refine ⟨?_, ?_, rfl⟩
  · simpa using (from_environment_fixed_fields env hd wd cpu).2.1
  · simpa using (from_environment_fixed_fields env hd wd cpu).2.2

/-- C5 counterexample: `install_type` is not among the declared dataclass
fields of `EnvironmentConfig`, so the claim as stated is false. -/
theorem c5_counterexample : ¬ claimC5 := by
  intro h
  exact absurd h.2.2.1.1 (by decide)

/-- C5 (amended): Flutter version, target platforms and the parallelism
toggle are declared `EnvironmentConfig` fields populatable from
`from_environment` environment variables and/or `setup` CLI flags (the
Flutter version only via the CLI); `android_api_level` and
`android_build_tools_version` are declared fields but no environment
variable or `setup` CLI flag populates them; `install_type` is not a
declared field at all and is only attached dynamically by the CLI `setup`
command. -/
theorem c5_config_flag_population :
    ("flutter_version" ∈ environmentConfigDeclaredFields
      ∧ cliPopulatable (fun c => c.flutter_version)
      ∧ ∀ env hd wd cpu, (from_environment env hd wd cpu).flutter_version = "3.32.0")
    ∧ ("platforms" ∈ environmentConfigDeclaredFields
      ∧ envPopulatable (fun c => c.platforms)
      ∧ cliPopulatable (fun c => c.platforms))
    ∧ ("install_type" ∉ environmentConfigDeclaredFields
      ∧ ∀ args env hd wd cpu, (cli_setup_config args env hd wd cpu).2 = args.install_type)
    ∧ ("android_api_level" ∈ environmentConfigDeclaredFields
      ∧ (∀ env hd wd cpu, (from_environment env hd wd cpu).android_api_level = "34")
      ∧ (∀ args env hd wd cpu,
          (cli_setup_config args env hd wd cpu).1.android_api_level = "34"))
    ∧ ("android_build_tools_version" ∈ environmentConfigDeclaredFields
      ∧ (∀ env hd wd cpu,
          (from_environment env hd wd cpu).android_build_tools_version = "34.0.0")
      ∧ (∀ args env hd wd cpu,
          (cli_setup_config args env hd wd cpu).1.android_build_tools_version = "34.0.0"))
    ∧ ("parallel_execution" ∈ environmentConfigDeclaredFields
      ∧ envPopulatable (fun c => c.parallel_execution)
      ∧ cliPopulatable (fun c => c.parallel_execution)) := by
  refine ⟨⟨by decide, ?_, ?_⟩, ⟨by decide, ?_, ?_⟩, ⟨by decide, ?_⟩,
    ⟨by decide, ?_, ?_⟩, ⟨by decide, ?_, ?_⟩, ⟨by decide, ?_, ?_⟩⟩
  · exact ⟨{ flutter_version := "3.19.0" }, {}, fun _ => none, "h", "w", some 4, by decide⟩
  · intro env hd wd cpu
    exact (from_environment_fixed_fields env hd wd cpu).1
  · exact ⟨fun k => if k = "PLATFORMS" then some "android" else none, fun _ => none,
      "h", "w", some 4, by decide⟩
  · exact ⟨{ platforms := "web,android" }, {}, fun _ => none, "h", "w", some 4, by decide⟩
  · intro args env hd wd cpu
    exact (cli_setup_config_fixed_fields args env hd wd cpu).2.2
  · intro env hd wd cpu
    exact (from_environment_fixed_fields env hd wd cpu).2.1
  · intro args env hd wd cpu
    exact (cli_setup_config_fixed_fields args env hd wd cpu).1
  · intro env hd wd cpu
    exact (from_environment_fixed_fields env hd wd cpu).2.2
  · intro args env hd wd cpu
    exact (cli_setup_config_fixed_fields args env hd wd cpu).2.1
  · exact ⟨fun k => if k = "PARALLEL_EXECUTION" then some "false" else none, fun _ => none,
      "h", "w", some 4, by decide⟩
  · exact ⟨{ no_parallel := true }, {}, fun _ => none, "h", "w", some 4, by decide⟩

theorem rsPhase7_spec (t : String) (o7 : Except PyExc Bool) (tr : List Nat) :
    (∃ s, (rsPhase7 t o7 tr).2 = tr ++ s ∧ List.Sublist s [7])
    ∧ ((7 : Nat) ∉ tr → o7 = .ok false → 7 ∈ (rsPhase7 t o7 tr).2 →
        rsPhase7 t o7 tr = (.ok false, tr ++ [7])) := by
  unfold rsPhase7
  by_cases hg : phase47Gate t
  · simp only [hg, if_true]
    rcases o7 with e | b
    · exact ⟨⟨[7], rfl, by decide⟩, by intro _ h _; exact absurd h (by simp)⟩
    · cases b
      · exact ⟨⟨[7], rfl, by decide⟩, fun _ _ _ => rfl⟩
      · exact ⟨⟨[7], rfl, by decide⟩, by intro _ h _; exact absurd h (by simp)⟩
  · simp only [hg, if_false]
    refine ⟨⟨[], by simp, by decide⟩, ?_⟩
    intro h7 _ hmem
    exact absurd hmem h7

theorem rsPhase6_spec (t : String) (o6 o7 : Except PyExc Bool) (tr : List Nat) :
    (∃ s, (rsPhase6 t o6 o7 tr).2 = tr ++ s ∧ List.Sublist s [6, 7])
    ∧ ((6 : Nat) ∉ tr → o6 = .ok false → 6 ∈ (rsPhase6 t o6 o7 tr).2 →
        rsPhase6 t o6 o7 tr = (.ok false, tr ++ [6]))
    ∧ ((7 : Nat) ∉ tr → o7 = .ok false → 7 ∈ (rsPhase6 t o6 o7 tr).2 →
        (rsPhase6 t o6 o7 tr).1 = .ok false ∧ ∃ p, (rsPhase6 t o6 o7 tr).2 = p ++ [7]) := by
  unfold rsPhase6
  by_cases hg : phase6Gate t
  · rw [if_pos hg]
    rcases o6 with e | b
    · refine ⟨⟨[6], rfl, by decide⟩, ?_, ?_⟩
      · intro _ h _
        exact absurd h (by simp)
      · intro h7 _ hmem
        rcases List.mem_append.mp hmem with h | h
        · exact absurd h h7
        · exact absurd h (by decide)
    · cases b
      · refine ⟨⟨[6], rfl, by decide⟩, fun _ _ _ => rfl, ?_⟩
        intro h7 _ hmem
        rcases List.mem_append.mp hmem with h | h
        · exact absurd h h7
        · exact absurd h (by decide)
      · obtain ⟨⟨s, hs, hsub⟩, hfat⟩ := rsPhase7_spec t o7 (tr ++ [6])
        refine ⟨⟨6 :: s, by rw [hs, List.append_assoc]; rfl, List.Sublist.cons₂ 6 hsub⟩,
          ?_, ?_⟩
        · intro _ h _
          exact absurd h (by simp)
        · intro h7 ho7 hmem
          have h7' : (7 : Nat) ∉ tr ++ [6] := by
            intro hc
            rcases List.mem_append.mp hc with h | h
            · exact absurd h h7
            · exact absurd h (by decide)
          have heq := hfat h7' ho7 (by rw [hs] at hmem ⊢; exact hmem)
          rw [heq]
          exact ⟨rfl, ⟨tr ++ [6], rfl⟩⟩
  · rw [if_neg hg]
    obtain ⟨⟨s, hs, hsub⟩, hfat⟩ := rsPhase7_spec t o7 tr
    refine ⟨⟨s, hs, List.Sublist.cons 6 hsub⟩, ?_, ?_⟩
    · intro h6 _ hmem
      rw [hs] at hmem
      rcases List.mem_append.mp hmem with h | h
      · exact absurd h h6
      · exact absurd (hsub.subset h) (by decide)
    · intro h7 ho7 hmem
      have heq := hfat h7 ho7 hmem
      rw [heq]
      exact ⟨rfl, ⟨tr, rfl⟩⟩

theorem not_mem_append_singleton {k m : Nat} {tr : List Nat}
    (h1 : k ∉ tr) (h2 : k ≠ m) : k ∉ tr ++ [m] := by
  intro hc
  rcases List.mem_append.mp hc with h | h
  · exact h1 h
  · simp at h
    exact h2 h

theorem rsPhase5_spec (t : String) (o5 o6 o7 : Except PyExc Bool) (tr : List Nat) :
    (∃ s, (rsPhase5 t o5 o6 o7 tr).2 = tr ++ s ∧ List.Sublist s [5, 6, 7])
    ∧ ((5 : Nat) ∉ tr → o5 = .ok false → 5 ∈ (rsPhase5 t o5 o6 o7 tr).2 →
        rsPhase5 t o5 o6 o7 tr = (.ok false, tr ++ [5]))
    ∧ ((6 : Nat) ∉ tr → o6 = .ok false → 6 ∈ (rsPhase5 t o5 o6 o7 tr).2 →
        (rsPhase5 t o5 o6 o7 tr).1 = .ok false ∧ ∃ p, (rsPhase5 t o5 o6 o7 tr).2 = p ++ [6])
    ∧ ((7 : Nat) ∉ tr → o7 = .ok false → 7 ∈ (rsPhase5 t o5 o6 o7 tr).2 →
        (rsPhase5 t o5 o6 o7 tr).1 = .ok false ∧ ∃ p, (rsPhase5 t o5 o6 o7 tr).2 = p ++ [7]) := by
  unfold rsPhase5
  rcases o5 with e | b
  · refine ⟨⟨[5], rfl, by decide⟩, ?_, ?_, ?_⟩
    · intro _ h _
      exact absurd h (by simp)
    · intro h6 _ hmem
      exact absurd hmem (not_mem_append_singleton h6 (by decide))
    · intro h7 _ hmem
      exact absurd hmem (not_mem_append_singleton h7 (by decide))
  · cases b
    · refine ⟨⟨[5], rfl, by decide⟩, fun _ _ _ => rfl, ?_, ?_⟩
      · intro h6 _ hmem
        exact absurd hmem (not_mem_append_singleton h6 (by decide))
      · intro h7 _ hmem
        exact absurd hmem (not_mem_append_singleton h7 (by decide))
    · obtain ⟨⟨s, hs, hsub⟩, hfat6, hfat7⟩ := rsPhase6_spec t o6 o7 (tr ++ [5])
      refine ⟨⟨5 :: s, by rw [hs, List.append_assoc]; rfl, List.Sublist.cons₂ 5 hsub⟩,
        ?_, ?_, ?_⟩
      · intro _ h _
        exact absurd h (by simp)
      · intro h6 ho6 hmem
        have heq := hfat6 (not_mem_append_singleton h6 (by decide)) ho6 hmem
        rw [heq]
        exact ⟨rfl, ⟨tr ++ [5], rfl⟩⟩
      · intro h7 ho7 hmem
        exact hfat7 (not_mem_append_singleton h7 (by decide)) ho7 hmem

theorem rsPhase4_spec (t : String) (o4 o5 o6 o7 : Except PyExc Bool) (tr : List Nat) :
    (∃ s, (rsPhase4 t o4 o5 o6 o7 tr).2 = tr ++ s ∧ List.Sublist s [4, 5, 6, 7])
    ∧ ((4 : Nat) ∉ tr → o4 = .ok false → 4 ∈ (rsPhase4 t o4 o5 o6 o7 tr).2 →
        rsPhase4 t o4 o5 o6 o7 tr = (.ok false, tr ++ [4]))
    ∧ ((5 : Nat) ∉ tr → o5 = .ok false → 5 ∈ (rsPhase4 t o4 o5 o6 o7 tr).2 →
        (rsPhase4 t o4 o5 o6 o7 tr).1 = .ok false
          ∧ ∃ p, (rsPhase4 t o4 o5 o6 o7 tr).2 = p ++ [5])
    ∧ ((6 : Nat) ∉ tr → o6 = .ok false → 6 ∈ (rsPhase4 t o4 o5 o6 o7 tr).2 →
        (rsPhase4 t o4 o5 o6 o7 tr).1 = .ok false
          ∧ ∃ p, (rsPhase4 t o4 o5 o6 o7 tr).2 = p ++ [6])
    ∧ ((7 : Nat) ∉ tr → o7 = .ok false → 7 ∈ (rsPhase4 t o4 o5 o6 o7 tr).2 →
        (rsPhase4 t o4 o5 o6 o7 tr).1 = .ok false
          ∧ ∃ p, (rsPhase4 t o4 o5 o6 o7 tr).2 = p ++ [7]) := by
  unfold rsPhase4
  by_cases hg : phase47Gate t
  · rw [if_pos hg]
    rcases o4 with e | b
    · refine ⟨⟨[4], rfl, by decide⟩, ?_, ?_, ?_, ?_⟩
      · intro _ h _
        exact absurd h (by simp)
      · intro h5 _ hmem
        exact absurd hmem (not_mem_append_singleton h5 (by decide))
      · intro h6 _ hmem
        exact absurd hmem (not_mem_append_singleton h6 (by decide))
      · intro h7 _ hmem
        exact absurd hmem (not_mem_append_singleton h7 (by decide))
    · cases b
      · refine ⟨⟨[4], rfl, by decide⟩, fun _ _ _ => rfl, ?_, ?_, ?_⟩
        · intro h5 _ hmem
          exact absurd hmem (not_mem_append_singleton h5 (by decide))
        · intro h6 _ hmem
          exact absurd hmem (not_mem_append_singleton h6 (by decide))
        · intro h7 _ hmem
          exact absurd hmem (not_mem_append_singleton h7 (by decide))
      · obtain ⟨⟨s, hs, hsub⟩, hfat5, hfat6, hfat7⟩ := rsPhase5_spec t o5 o6 o7 (tr ++ [4])
        refine ⟨⟨4 :: s, by rw [hs, List.append_assoc]; rfl, List.Sublist.cons₂ 4 hsub⟩,
          ?_, ?_, ?_, ?_⟩
        · intro _ h _
          exact absurd h (by simp)
        · intro h5 ho5 hmem
          have heq := hfat5 (not_mem_append_singleton h5 (by decide)) ho5 hmem
          rw [heq]
          exact ⟨rfl, ⟨tr ++ [4], rfl⟩⟩
        · intro h6 ho6 hmem
          exact hfat6 (not_mem_append_singleton h6 (by decide)) ho6 hmem
        · intro h7 ho7 hmem
          exact hfat7 (not_mem_append_singleton h7 (by decide)) ho7 hmem
  · rw [if_neg hg]
    obtain ⟨⟨s, hs, hsub⟩, hfat5, hfat6, hfat7⟩ := rsPhase5_spec t o5 o6 o7 tr
    refine ⟨⟨s, hs, List.Sublist.cons 4 hsub⟩, ?_, ?_, ?_, ?_⟩
    · intro h4 _ hmem
      rw [hs] at hmem
      rcases List.mem_append.mp hmem with h | h
      · exact absurd h h4
      · exact absurd (hsub.subset h) (by decide)
    · intro h5 ho5 hmem
      have heq := hfat5 h5 ho5 hmem
      rw [heq]
      exact ⟨rfl, ⟨tr, rfl⟩⟩
    · exact hfat6
    · exact hfat7

theorem rsPhase3_spec (t : String) (o3 o4 o5 o6 o7 : Except PyExc Bool) (tr : List Nat) :
    (∃ s, (rsPhase3 t o3 o4 o5 o6 o7 tr).2 = tr ++ s ∧ List.Sublist s [3, 4, 5, 6, 7])
    ∧ ((3 : Nat) ∉ tr → o3 = .ok false → 3 ∈ (rsPhase3 t o3 o4 o5 o6 o7 tr).2 →
        rsPhase3 t o3 o4 o5 o6 o7 tr = (.ok false, tr ++ [3]))
    ∧ ((4 : Nat) ∉ tr → o4 = .ok false → 4 ∈ (rsPhase3 t o3 o4 o5 o6 o7 tr).2 →
        (rsPhase3 t o3 o4 o5 o6 o7 tr).1 = .ok false
          ∧ ∃ p, (rsPhase3 t o3 o4 o5 o6 o7 tr).2 = p ++ [4])
    ∧ ((5 : Nat) ∉ tr → o5 = .ok false → 5 ∈ (rsPhase3 t o3 o4 o5 o6 o7 tr).2 →
        (rsPhase3 t o3 o4 o5 o6 o7 tr).1 = .ok false
          ∧ ∃ p, (rsPhase3 t o3 o4 o5 o6 o7 tr).2 = p ++ [5])
    ∧ ((6 : Nat) ∉ tr → o6 = .ok false → 6 ∈ (rsPhase3 t o3 o4 o5 o6 o7 tr).2 →
        (rsPhase3 t o3 o4 o5 o6 o7 tr).1 = .ok false
          ∧ ∃ p, (rsPhase3 t o3 o4 o5 o6 o7 tr).2 = p ++ [6])
    ∧ ((7 : Nat) ∉ tr → o7 = .ok false → 7 ∈ (rsPhase3 t o3 o4 o5 o6 o7 tr).2 →
        (rsPhase3 t o3 o4 o5 o6 o7 tr).1 = .ok false
          ∧ ∃ p, (rsPhase3 t o3 o4 o5 o6 o7 tr).2 = p ++ [7]) := by
  unfold rsPhase3
  by_cases hg : phase3Gate t
  · rw [if_pos hg]
    rcases o3 with e | b
    · refine ⟨⟨[3], rfl, by decide⟩, ?_, ?_, ?_, ?_, ?_⟩
      · intro _ h _
        exact absurd h (by simp)
      · intro h4 _ hmem
        exact absurd hmem (not_mem_append_singleton h4 (by decide))
      · intro h5 _ hmem
        exact absurd hmem (not_mem_append_singleton h5 (by decide))
      · intro h6 _ hmem
        exact absurd hmem (not_mem_append_singleton h6 (by decide))
      · intro h7 _ hmem
        exact absurd hmem (not_mem_append_singleton h7 (by decide))
    · cases b
      · refine ⟨⟨[3], rfl, by decide⟩, fun _ _ _ => rfl, ?_, ?_, ?_, ?_⟩
        · intro h4 _ hmem
          exact absurd hmem (not_mem_append_singleton h4 (by decide))
        · intro h5 _ hmem
          exact absurd hmem (not_mem_append_singleton h5 (by decide))
        · intro h6 _ hmem
          exact absurd hmem (not_mem_append_singleton h6 (by decide))
        · intro h7 _ hmem
          exact absurd hmem (not_mem_append_singleton h7 (by decide))
      · obtain ⟨⟨s, hs, hsub⟩, hfat4, hfat5, hfat6, hfat7⟩ :=
          rsPhase4_spec t o4 o5 o6 o7 (tr ++ [3])
        refine ⟨⟨3 :: s, by rw [hs, List.append_assoc]; rfl, List.Sublist.cons₂ 3 hsub⟩,
          ?_, ?_, ?_, ?_, ?_⟩
        · intro _ h _
          exact absurd h (by simp)
        · intro h4 ho4 hmem
          have heq := hfat4 (not_mem_append_singleton h4 (by decide)) ho4 hmem
          rw [heq]
          exact ⟨rfl, ⟨tr ++ [3], rfl⟩⟩
        · intro h5 ho5 hmem
          exact hfat5 (not_mem_append_singleton h5 (by decide)) ho5 hmem
        · intro h6 ho6 hmem
          exact hfat6 (not_mem_append_singleton h6 (by decide)) ho6 hmem
        · intro h7 ho7 hmem
          exact hfat7 (not_mem_append_singleton h7 (by decide)) ho7 hmem
  · rw [if_neg hg]
    obtain ⟨⟨s, hs, hsub⟩, hfat4, hfat5, hfat6, hfat7⟩ := rsPhase4_spec t o4 o5 o6 o7 tr
    refine ⟨⟨s, hs, List.Sublist.cons 3 hsub⟩, ?_, ?_, ?_, ?_, ?_⟩
    · intro h3 _ hmem
      rw [hs] at hmem
      rcases List.mem_append.mp hmem with h | h
      · exact absurd h h3
      · exact absurd (hsub.subset h) (by decide)
    · intro h4 ho4 hmem
      have heq := hfat4 h4 ho4 hmem
      rw [heq]
      exact ⟨rfl, ⟨tr, rfl⟩⟩
    · exact hfat5
    · exact hfat6
    · exact hfat7


/-- C7: `run_setup` executes its phases in the fixed source order — the
executed-phase trace is an ordered sublist of `[1..7]` — and whenever a
fatal phase (1 and 3-7; phase 2's git result is ignored) returns `False`,
it is the last phase executed and `run_setup` returns `False`. -/
theorem c7_phase_order (it : Option String) (o1 o2 o3 o4 o5 o6 o7 : Except PyExc Bool) :
    List.Sublist (run_setup it o1 o2 o3 o4 o5 o6 o7).2 [1, 2, 3, 4, 5, 6, 7]
    ∧ (o1 = .ok false → run_setup it o1 o2 o3 o4 o5 o6 o7 = (false, [1]))
    ∧ (3 ∈ (run_setup it o1 o2 o3 o4 o5 o6 o7).2 → o3 = .ok false →
        (run_setup it o1 o2 o3 o4 o5 o6 o7).1 = false
          ∧ (run_setup it o1 o2 o3 o4 o5 o6 o7).2.getLast? = some 3)
    ∧ (4 ∈ (run_setup it o1 o2 o3 o4 o5 o6 o7).2 → o4 = .ok false →
        (run_setup it o1 o2 o3 o4 o5 o6 o7).1 = false
          ∧ (run_setup it o1 o2 o3 o4 o5 o6 o7).2.getLast? = some 4)
    ∧ (5 ∈ (run_setup it o1 o2 o3 o4 o5 o6 o7).2 → o5 = .ok false →
        (run_setup it o1 o2 o3 o4 o5 o6 o7).1 = false
          ∧ (run_setup it o1 o2 o3 o4 o5 o6 o7).2.getLast? = some 5)
    ∧ (6 ∈ (run_setup it o1 o2 o3 o4 o5 o6 o7).2 → o6 = .ok false →
        (run_setup it o1 o2 o3 o4 o5 o6 o7).1 = false
          ∧ (run_setup it o1 o2 o3 o4 o5 o6 o7).2.getLast? = some 6)
    ∧ (7 ∈ (run_setup it o1 o2 o3 o4 o5 o6 o7).2 → o7 = .ok false →
        (run_setup it o1 o2 o3 o4 o5 o6 o7).1 = false
          ∧ (run_setup it o1 o2 o3 o4 o5 o6 o7).2.getLast? = some 7) := by
  rcases o1 with e1 | b1
  · have hr : run_setup it (.error e1) o2 o3 o4 o5 o6 o7 = (false, [1]) := rfl
    rw [hr]
    exact ⟨by decide, by intro h; simp at h,
      by intro h _; exact absurd h (by decide),
      by intro h _; exact absurd h (by decide),
      by intro h _; exact absurd h (by decide),
      by intro h _; exact absurd h (by decide),
      by intro h _; exact absurd h (by decide)⟩
  cases b1
  · have hr : run_setup it (.ok false) o2 o3 o4 o5 o6 o7 = (false, [1]) := rfl
    rw [hr]
    exact ⟨by decide, fun _ => rfl,
      by intro h _; exact absurd h (by decide),
      by intro h _; exact absurd h (by decide),
      by intro h _; exact absurd h (by decide),
      by intro h _; exact absurd h (by decide),
      by intro h _; exact absurd h (by decide)⟩
  rcases o2 with e2 | b2
  · have hr : run_setup it (.ok true) (.error e2) o3 o4 o5 o6 o7 = (false, [1, 2]) := rfl
    rw [hr]
    exact ⟨by decide, by intro h; simp at h,
      by intro h _; exact absurd h (by decide),
      by intro h _; exact absurd h (by decide),
      by intro h _; exact absurd h (by decide),
      by intro h _; exact absurd h (by decide),
      by intro h _; exact absurd h (by decide)⟩
  rcases it with _ | t
  · have hr : run_setup none (.ok true) (.ok b2) o3 o4 o5 o6 o7 = (false, [1, 2]) := rfl
    rw [hr]
    exact ⟨by decide, by intro h; simp at h,
      by intro h _; exact absurd h (by decide),
      by intro h _; exact absurd h (by decide),
      by intro h _; exact absurd h (by decide),
      by intro h _; exact absurd h (by decide),
      by intro h _; exact absurd h (by decide)⟩
  · obtain ⟨⟨s, hs, hsub⟩, hfat3, hfat4, hfat5, hfat6, hfat7⟩ :=
      rsPhase3_spec t o3 o4 o5 o6 o7 [1, 2]
    have hsnd : (run_setup (some t) (.ok true) (.ok b2) o3 o4 o5 o6 o7).2
        = (rsPhase3 t o3 o4 o5 o6 o7 [1, 2]).2 := rfl
    have hfst : ∀ b, (rsPhase3 t o3 o4 o5 o6 o7 [1, 2]).1 = .ok b →
        (run_setup (some t) (.ok true) (.ok b2) o3 o4 o5 o6 o7).1 = b := by
      intro b hb
      show (match (run_setup_body (some t) (.ok true) (.ok b2) o3 o4 o5 o6 o7).1 with
            | .ok b => b
            | .error _ => false) = b
      have hb' : (run_setup_body (some t) (.ok true) (.ok b2) o3 o4 o5 o6 o7).1
          = .ok b := hb
      rw [hb']
    refine ⟨?_, ?_, ?_, ?_, ?_, ?_, ?_⟩
    · rw [hsnd, hs]
      exact List.Sublist.cons₂ 1 (List.Sublist.cons₂ 2 hsub)
    · intro h
      simp at h
    · intro hm ho3
      rw [hsnd] at hm
      have heq := hfat3 (by decide) ho3 hm
      refine ⟨hfst false (by rw [heq]), ?_⟩
      rw [hsnd, heq]
      decide
    · intro hm ho4
      rw [hsnd] at hm
      obtain ⟨hf, p, hp⟩ := hfat4 (by decide) ho4 hm
      refine ⟨hfst false hf, ?_⟩
      rw [hsnd, hp]
      exact List.getLast?_concat p
    · intro hm ho5
      rw [hsnd] at hm
      obtain ⟨hf, p, hp⟩ := hfat5 (by decide) ho5 hm
      refine ⟨hfst false hf, ?_⟩
      rw [hsnd, hp]
      exact List.getLast?_concat p
    · intro hm ho6
      rw [hsnd] at hm
      obtain ⟨hf, p, hp⟩ := hfat6 (by decide) ho6 hm
      refine ⟨hfst false hf, ?_⟩
      rw [hsnd, hp]
      exact List.getLast?_concat p
    · intro hm ho7
      rw [hsnd] at hm
      obtain ⟨hf, p, hp⟩ := hfat7 (by decide) ho7 hm
      refine ⟨hfst false hf, ?_⟩
      rw [hsnd, hp]
      exact List.getLast?_concat p

/-- Witness for C7: with `install_type = "ALL"` and the environment phase
returning `False`, the trace stops at phase 4 and setup fails. -/
theorem c7_phase_order_witness :
    (run_setup (some "ALL") (.ok true) (.ok true) (.ok true) (.ok false)
      (.ok true) (.ok true) (.ok true)).1 = false
    ∧ (run_setup (some "ALL") (.ok true) (.ok true) (.ok true) (.ok false)
      (.ok true) (.ok true) (.ok true)).2.getLast? = some 4 :=
  (c7_phase_order (some "ALL") (.ok true) (.ok true) (.ok true) (.ok false)
    (.ok true) (.ok true) (.ok true)).2.2.2.1 (by decide) (by decide)

theorem digitChar_isDigit {d : Nat} (h : d < 10) : (digitChar d).isDigit = true := by
  interval_cases d <;> decide

theorem digitChar_toNat {d : Nat} (h : d < 10) : (digitChar d).toNat = 48 + d := by
  interval_cases d <;> decide

theorem charsToNatOpt_eq_some {l : List Char} {v : Nat} :
    charsToNatOpt l = some v ↔
      l ≠ [] ∧ l.all Char.isDigit = true
        ∧ l.foldl (fun a c => a * 10 + (c.toNat - 48)) 0 = v := by
  unfold charsToNatOpt
  split_ifs with h
  · exact ⟨fun he => ⟨h.1, h.2, Option.some.inj he⟩, fun hv => by rw [hv.2.2]⟩
  · constructor
    · intro he
      cases he
    · intro hv
      exact absurd ⟨hv.1, hv.2.1⟩ h

theorem charsToNatOpt_append_digit {l : List Char} {v : Nat} {c : Char}
    (hl : charsToNatOpt l = some v) (hc : c.isDigit = true) :
    charsToNatOpt (l ++ [c]) = some (v * 10 + (c.toNat - 48)) := by
  rw [charsToNatOpt_eq_some] at hl ⊢
  obtain ⟨hne, hall, hv⟩ := hl
  refine ⟨by simp, ?_, ?_⟩
  · simp [List.all_append, hall, hc]
  · rw [List.foldl_append, hv]
    rfl

theorem natToCharsAux_spec : ∀ (m n : Nat), n < 10 ^ (m + 1) →
    charsToNatOpt (natToCharsAux (m + 1) n) = some n := by
  intro m
  induction m with
  | zero =>
    intro n hn
    have h10 : n < 10 := by simpa using hn
    unfold natToCharsAux
    rw [if_pos h10, charsToNatOpt_eq_some]
    refine ⟨by simp, by simp [digitChar_isDigit h10], ?_⟩
    simp [digitChar_toNat h10]
  | succ k ih =>
    intro n hn
    unfold natToCharsAux
    by_cases h10 : n < 10
    · rw [if_pos h10, charsToNatOpt_eq_some]
      refine ⟨by simp, by simp [digitChar_isDigit h10], ?_⟩
      simp [digitChar_toNat h10]
    · rw [if_neg h10]
      have hdiv : n / 10 < 10 ^ (k + 1) := by
        have hmul : n < 10 ^ (k + 1) * 10 := by
          rw [pow_succ] at hn
          exact hn
        omega
      have hmod : n % 10 < 10 := Nat.mod_lt n (by norm_num)
      rw [charsToNatOpt_append_digit (ih (n / 10) hdiv) (digitChar_isDigit hmod)]
      rw [digitChar_toNat hmod]
      congr 1
      omega

theorem charsToNatOpt_natToChars (n : Nat) : charsToNatOpt (natToChars n) = some n := by
  unfold natToChars
  refine natToCharsAux_spec n n ?_
  calc n < 10 ^ n := Nat.lt_pow_self (by norm_num) n
    _ ≤ 10 ^ (n + 1) := Nat.pow_le_pow_right (by norm_num) (Nat.le_succ n)

theorem natToChars_all_digit (n : Nat) :
    natToChars n ≠ [] ∧ ∀ c ∈ natToChars n, c.isDigit = true := by
  obtain ⟨hne, hall, _⟩ := charsToNatOpt_eq_some.mp (charsToNatOpt_natToChars n)
  exact ⟨hne, fun c hc => List.all_eq_true.mp hall c hc⟩

theorem isDigit_not_space {c : Char} (h : c.isDigit = true) : isSpaceChar c = false := by
  unfold isSpaceChar
  by_contra hs
  rw [Bool.not_eq_false] at hs
  simp only [Bool.or_eq_true, beq_iff_eq] at hs
  rcases hs with ((h1 | h1) | h1) | h1 <;> (subst h1; exact absurd h (by decide))

theorem isDigit_ne_plus {c : Char} (h : c.isDigit = true) : (c == '+') = false := by
  by_contra hs
  rw [Bool.not_eq_false, beq_iff_eq] at hs
  subst hs
  exact absurd h (by decide)

theorem isDigit_ne_minus {c : Char} (h : c.isDigit = true) : (c == '-') = false := by
  by_contra hs
  rw [Bool.not_eq_false, beq_iff_eq] at hs
  subst hs
  exact absurd h (by decide)

theorem isDigit_ne_underscore {c : Char} (h : c.isDigit = true) : c ≠ '_' := by
  intro he
  subst he
  exact absurd h (by decide)

theorem dropWhile_eq_self_of_none {p : Char → Bool} {l : List Char}
    (h : ∀ c ∈ l, p c = false) : l.dropWhile p = l := by
  cases l with
  | nil => rfl
  | cons a t =>
    rw [List.dropWhile_cons, h a (by simp)]
    simp

theorem pyStrip_eq_self {l : List Char} (h : ∀ c ∈ l, isSpaceChar c = false) :
    pyStrip l = l := by
  unfold pyStrip
  rw [dropWhile_eq_self_of_none h,
    dropWhile_eq_self_of_none (fun c hc => h c (List.mem_reverse.mp hc)),
    List.reverse_reverse]

theorem pyIntParse_natToChars (n : Nat) : pyIntParse (natToChars n) = some (n : Int) := by
  obtain ⟨hne, hmem⟩ := natToChars_all_digit n
  unfold pyIntParse
  rw [pyStrip_eq_self (fun c hc => isDigit_not_space (hmem c hc))]
  rcases hl : natToChars n with _ | ⟨c, rest⟩
  · exact absurd hl hne
  · have hcd : c.isDigit = true := hmem c (by rw [hl]; simp)
    dsimp only
    rw [if_neg (by rw [isDigit_ne_plus hcd]; exact Bool.false_ne_true),
      if_neg (by rw [isDigit_ne_minus hcd]; exact Bool.false_ne_true)]
    rw [← hl, charsToNatOpt_natToChars n]
    rfl

theorem splitOnChar_not_mem {c : Char} : ∀ {l : List Char}, c ∉ l →
    splitOnChar c l = [l] := by
  intro l
  induction l with
  | nil => intro _; rfl
  | cons a t ih =>
    intro h
    have ha : (a == c) = false := by
      rw [beq_eq_false_iff_ne]
      intro he
      exact h (he ▸ List.mem_cons_self a t)
    have ht : c ∉ t := fun hc => h (List.mem_cons_of_mem a hc)
    simp only [splitOnChar, ih ht, ha]
    rfl

theorem splitOnChar_agents_head (ds : List Char) (h : ('_' : Char) ∉ ds) :
    splitOnChar '_' ("AGENTS_".toList ++ ds) = ["AGENTS".toList, ds] := by
  have hstep : splitOnChar '_' ("AGENTS_".toList ++ ds)
      = "AGENTS".toList :: splitOnChar '_' ds := rfl
  rw [hstep, splitOnChar_not_mem h]

theorem listStartsWith_nil (l : List Char) : listStartsWith l [] = true := by
  cases l <;> rfl

theorem listStartsWith_append (p t : List Char) : listStartsWith (p ++ t) p = true := by
  induction p with
  | nil => exact listStartsWith_nil t
  | cons a p ih => simp [listStartsWith, ih]

theorem listEndsWith_append (p t : List Char) : listEndsWith (p ++ t) t = true := by
  unfold listEndsWith
  rw [List.reverse_append]
  exact listStartsWith_append t.reverse p.reverse

theorem globMatchAgents_constructed (k : Nat) :
    globMatchAgents ("AGENTS_".toList ++ natToChars k ++ ".md".toList) = true := by
  unfold globMatchAgents
  rw [Bool.and_eq_true, Bool.and_eq_true]
  refine ⟨⟨?_, listEndsWith_append _ _⟩, ?_⟩
  · rw [List.append_assoc]
    exact listStartsWith_append _ _
  · rw [decide_eq_true_iff]
    simp [List.length_append]

theorem stemOfMd_constructed (k : Nat) :
    stemOfMd ("AGENTS_".toList ++ natToChars k ++ ".md".toList)
      = "AGENTS_".toList ++ natToChars k := by
  unfold stemOfMd
  have hlen : ("AGENTS_".toList ++ natToChars k ++ ".md".toList).length - 3
      = ("AGENTS_".toList ++ natToChars k).length := by
    simp [List.length_append]
  rw [hlen]
  exact List.take_left _ _

theorem agentsSuffixNum_constructed (k : Nat) :
    agentsSuffixNum ("AGENTS_".toList ++ natToChars k ++ ".md".toList)
      = some (k : Int) := by
  obtain ⟨_, hmem⟩ := natToChars_all_digit k
  unfold agentsSuffixNum
  rw [stemOfMd_constructed,
    splitOnChar_agents_head _ (fun hc => isDigit_ne_underscore (hmem _ hc) rfl)]
  simp [pyIntParse_natToChars]

theorem agentsMaxStep_ge (acc : Int) (f : List Char) : acc ≤ agentsMaxStep acc f := by
  unfold agentsMaxStep
  split
  · rcases agentsSuffixNum f with _ | n
    · exact le_refl acc
    · exact le_max_left acc n
  · exact le_refl acc

theorem foldl_agentsMaxStep_ge : ∀ (files : List (List Char)) (acc : Int),
    acc ≤ files.foldl agentsMaxStep acc := by
  intro files
  induction files with
  | nil => intro acc; exact le_refl acc
  | cons f t ih =>
    intro acc
    exact le_trans (agentsMaxStep_ge acc f) (ih (agentsMaxStep acc f))

theorem foldl_agentsMaxStep_mem : ∀ (files : List (List Char)) (acc : Int)
    (f : List Char) (n : Int), f ∈ files → globMatchAgents f = true →
    agentsSuffixNum f = some n → n ≤ files.foldl agentsMaxStep acc := by
  intro files
  induction files with
  | nil =>
    intro acc f n hmem
    exact absurd hmem (List.not_mem_nil f)
  | cons g t ih =>
    intro acc f n hmem hglob hsuf
    rw [List.foldl_cons]
    rcases List.mem_cons.mp hmem with h | h
    · subst h
      have hstep : agentsMaxStep acc f = max acc n := by
        unfold agentsMaxStep
        rw [if_pos hglob, hsuf]
      rw [hstep]
      exact le_trans (le_max_right acc n) (foldl_agentsMaxStep_ge t (max acc n))
    · exact ih (agentsMaxStep acc g) f n h hglob hsuf

theorem foldl_agentsMaxStep_filterMap : ∀ (files : List (List Char)) (acc : Int),
    files.foldl agentsMaxStep acc = (claimAgentsSuffixes files).foldl max acc := by
  intro files
  induction files with
  | nil => intro acc; rfl
  | cons f t ih =>
    intro acc
    show t.foldl agentsMaxStep (agentsMaxStep acc f)
      = ((f :: t).filterMap
          (fun f => if globMatchAgents f then agentsSuffixNum f else none)).foldl max acc
    rw [List.filterMap_cons]
    by_cases hg : globMatchAgents f
    · rw [if_pos hg]
      rcases hsuf : agentsSuffixNum f with _ | n
      · have hstep : agentsMaxStep acc f = acc := by
          unfold agentsMaxStep
          rw [if_pos hg, hsuf]
        rw [hstep]
        exact ih acc
      · have hstep : agentsMaxStep acc f = max acc n := by
          unfold agentsMaxStep
          rw [if_pos hg, hsuf]
        rw [hstep]
        exact ih (max acc n)
    · rw [if_neg hg]
      have hstep : agentsMaxStep acc f = acc := by
        unfold agentsMaxStep
        rw [if_neg hg]
      rw [hstep]
      exact ih acc

theorem foldl_max_out : ∀ (l : List Int) (a b : Int),
    l.foldl max (max a b) = max a (l.foldl max b) := by
  intro l
  induction l with
  | nil => intro a b; rfl
  | cons c t ih =>
    intro a b
    show t.foldl max (max (max a b) c) = max a (t.foldl max (max b c))
    rw [max_assoc, ih]

theorem agentsMaxNum_eq_claim (files : List (List Char)) :
    agentsMaxNum files = max 0 (claimAgentsN files) := by
  unfold agentsMaxNum claimAgentsN
  rw [foldl_agentsMaxStep_filterMap]
  rcases claimAgentsSuffixes files with _ | ⟨x, xs⟩
  · rfl
  · show xs.foldl max (max 0 x) = max 0 (xs.foldl max x)
    exact foldl_max_out xs 0 x

/-- C10 counterexample: with `AGENTS.md` and `AGENTS_-3.md` present, the
code clamps the running maximum at `0` and returns `AGENTS_1.md`, while
the claim's formula `AGENTS_{n+1}.md` with `n = -3` (the largest integer
suffix) demands `AGENTS_-2.md`; so the claim as stated is false. -/
theorem c10_counterexample : ¬ claimC10 := by
  intro h
  have := (h ["AGENTS.md".toList, "AGENTS_-3.md".toList] (by decide)).1
  exact absurd this (by decide)

/-- C10 (amended): whenever `AGENTS.md` exists, `_get_agents_file_path`
returns `AGENTS_{m+1}.md` where `m` is the larger of `0` and the largest
integer suffix among existing `AGENTS_*.md` files, and the returned path
never refers to an already-existing file. -/
theorem c10_agents_path_fresh (files : List (List Char))
    (h : agentsMdName ∈ files) :
    get_agents_file_path files
      = "AGENTS_".toList ++ intToChars (max 0 (claimAgentsN files) + 1) ++ ".md".toList
    ∧ get_agents_file_path files ∉ files := by
  have hmax0 : (0 : Int) ≤ agentsMaxNum files := foldl_agentsMaxStep_ge files 0
  have hgap : get_agents_file_path files
      = "AGENTS_".toList ++ natToChars (agentsMaxNum files + 1).toNat ++ ".md".toList := by
    unfold get_agents_file_path
    rw [if_pos h]
  constructor
  · rw [hgap, ← agentsMaxNum_eq_claim]
    unfold intToChars
    rw [if_neg (by omega)]
  · rw [hgap]
    intro hmem
    have hkInt : ((agentsMaxNum files + 1).toNat : Int) = agentsMaxNum files + 1 :=
      Int.toNat_of_nonneg (by omega)
    have hle := foldl_agentsMaxStep_mem files 0 _ ((agentsMaxNum files + 1).toNat : Int)
      hmem (globMatchAgents_constructed _) (agentsSuffixNum_constructed _)
    rw [hkInt] at hle
    unfold agentsMaxNum at hle
    omega

/-- Witness for C10 on a concrete directory listing. -/
theorem c10_agents_path_fresh_witness :
    get_agents_file_path ["AGENTS.md".toList, "AGENTS_4.md".toList]
      = "AGENTS_".toList
        ++ intToChars (max 0 (claimAgentsN ["AGENTS.md".toList, "AGENTS_4.md".toList]) + 1)
        ++ ".md".toList
    ∧ get_agents_file_path ["AGENTS.md".toList, "AGENTS_4.md".toList]
        ∉ ["AGENTS.md".toList, "AGENTS_4.md".toList] :=
  c10_agents_path_fresh ["AGENTS.md".toList, "AGENTS_4.md".toList] (by decide)
